import Mathlib

/-!
Shallow embedding of the Polymarket clear-win trading bot
(src/config.py, src/polymarket_client.py, src/strategy.py, src/risk.py,
src/main.py) and verification of the frozen claims about it.

Modelling conventions:
* Python floats are modelled as rationals; the relevant operations
  (comparison, min, max, sum, subtraction, multiplication) are exact.
* JSON-ish Python values (payload dictionaries, response bodies) are modelled
  by the inductive type JValue; Python None and JSON null are both JValue.null.
* Fallible Python code is modelled with Except; an exception that would
  propagate is an Except.error value.
* Network traffic is explicit: each HTTP attempt is a value drawn from a
  function from the attempt index to a response, and definitions return the
  list of issued requests and performed sleeps alongside their result.
-/

set_option maxRecDepth 4000

/-- JSON-like values as produced by parsing an upstream payload in Python.
JValue.null models both JSON null and Python None. -/
inductive JValue where
  | null : JValue
  | bool (b : Bool) : JValue
  | num (q : ℚ) : JValue
  | str (s : String) : JValue
  | arr (xs : List JValue) : JValue
  | obj (kvs : List (String × JValue)) : JValue

/-- Python truthiness of a JValue (used by the or-operator in the source). -/
def truthy : JValue → Bool
  | .null => false
  | .bool b => b
  | .num q => q != 0
  | .str s => s != ""
  | .arr xs => !xs.isEmpty
  | .obj kvs => !kvs.isEmpty

/-- Python expression a or b: returns a when a is truthy, else b. -/
def pyOr (a b : JValue) : JValue :=
  if truthy a then a else b

/-- First-match association lookup, modelling Python dict.get k (absent gives
none). -/
def lookupJ (k : String) : List (String × JValue) → Option JValue
  | [] => none
  | (k1, v) :: rest => if k1 = k then some v else lookupJ k rest

/-- dict.get k with no default: some v when present, none when absent or when
the receiver is not a dictionary. -/
def jgetOpt (v : JValue) (k : String) : Option JValue :=
  match v with
  | .obj kvs => lookupJ k kvs
  | _ => none

/-- dict.get k returning Python None (JValue.null) when the key is absent. -/
def jgetN (v : JValue) (k : String) : JValue :=
  (jgetOpt v k).getD .null

/-- dict.get k with an explicit default value. -/
def jgetD (v : JValue) (k : String) (d : JValue) : JValue :=
  (jgetOpt v k).getD d

/-- Decimal-string parser modelling the Python float builtin on strings:
optional sign, integer digits, optional fractional digits (exponents and
inf/nan forms are not needed by this code base and are omitted). Returns none
when Python float would raise ValueError. -/
def parseDecimal (cs : List Char) : Option ℚ :=
  let intPart := cs.takeWhile Char.isDigit
  let rest := cs.dropWhile Char.isDigit
  let intVal : ℚ := (intPart.foldl (fun a c => 10 * a + (c.toNat - 48)) 0 : ℕ)
  match rest with
  | [] => if intPart.isEmpty then none else some intVal
  | '.' :: frac =>
    if frac.all Char.isDigit && !(intPart.isEmpty && frac.isEmpty) then
      some (intVal + ((frac.foldl (fun a c => 10 * a + (c.toNat - 48)) 0 : ℕ) : ℚ) / (10 : ℚ) ^ frac.length)
    else none
  | _ => none

/-- Python float applied to a string (the whitespace stripping Python also
performs is omitted; no caller passes padded strings). -/
def pyFloatStr (s : String) : Option ℚ :=
  match s.toList with
  | '-' :: rest => (parseDecimal rest).map (fun q => -q)
  | '+' :: rest => parseDecimal rest
  | cs => parseDecimal cs

/-- The Python float builtin on a JValue: numbers and booleans convert,
numeric strings parse, everything else (None, lists, dicts, non-numeric
strings) raises, which is modelled as none. -/
def pyFloat : JValue → Option ℚ
  | .num q => some q
  | .bool b => some (if b then 1 else 0)
  | .str s => pyFloatStr s
  | _ => none

/-- src/polymarket_client.py safe_float: float value inside try/except
returning None on TypeError or ValueError. -/
def safe_float (v : JValue) : Option ℚ :=
  pyFloat v

/-- The sort key of the asks-list fallback in extract_best_levels:
float applied to level.get price with default inf. none models infinity
(key absent); a malformed present price makes the raw float call raise,
modelled as Except.error. -/
def askKey (level : JValue) : Except Unit (Option ℚ) :=
  match jgetOpt level "price" with
  | none => .ok none
  | some v =>
    match pyFloat v with
    | some q => .ok (some q)
    | none => .error ()

/-- Strictly-less comparison on ask keys, where none stands for infinity. -/
def askKeyLt (a b : Option ℚ) : Bool :=
  match a, b with
  | some x, some y => x < y
  | some _, none => true
  | _, _ => false

/-- Tail of the Python min call over ask levels: keeps the first element with
the minimal key, raising (error) if float raises on any price. -/
def minByAskGo (best : JValue) (bestKey : Option ℚ) : List JValue → Except Unit JValue
  | [] => .ok best
  | y :: ys =>
    match askKey y with
    | .error e => .error e
    | .ok k => if askKeyLt k bestKey then minByAskGo y k ys else minByAskGo best bestKey ys

/-- Python min over a non-empty list of ask levels with key
float of level.get price (default inf). -/
def minByAsk (x : JValue) (xs : List JValue) : Except Unit JValue :=
  match askKey x with
  | .error e => .error e
  | .ok k => minByAskGo x k xs

/-- Python expression x or v where x is a float-or-None local variable and v a
payload value: a nonzero float keeps itself, None or 0.0 yields v. -/
def floatOr (x : Option ℚ) (v : JValue) : JValue :=
  match x with
  | some q => if q = 0 then v else .num q
  | none => v

/-- Body of src/polymarket_client.py extract_best_levels after the three
scalar lookups and the asks lookup are merged with the Python or-operator:
bid, ask, askSize, asks are the four merged values. -/
def extract_from (bid ask askSize asks : JValue) : Except Unit (Option ℚ × Option ℚ × Option ℚ) :=
  let best_bid := safe_float bid
  let best_ask := safe_float ask
  let best_ask_size := safe_float askSize
  if best_ask.isNone || best_ask_size.isNone then
    match asks with
    | .arr (l :: ls) =>
      match minByAsk l ls with
      | .error e => .error e
      | .ok top_ask =>
        .ok (best_bid,
             safe_float (floatOr best_ask (jgetN top_ask "price")),
             safe_float (floatOr best_ask_size (pyOr (jgetN top_ask "size") (jgetN top_ask "amount"))))
    | _ => .ok (best_bid, best_ask, best_ask_size)
  else .ok (best_bid, best_ask, best_ask_size)

/-- src/polymarket_client.py extract_best_levels: derive best bid/ask/size
from an outcome payload and its order-book object. An error is a ValueError
raised by the raw float call inside the min key of the asks fallback. -/
def extract_best_levels (outcome order_book : JValue) : Except Unit (Option ℚ × Option ℚ × Option ℚ) :=
  extract_from
    (pyOr (jgetN order_book "bestBid") (jgetN outcome "bestBid"))
    (pyOr (jgetN order_book "bestAsk") (jgetN outcome "bestAsk"))
    (pyOr (jgetN order_book "bestAskSize") (jgetN outcome "bestAskSize"))
    (pyOr (jgetN order_book "asks") (jgetN outcome "asks"))

/-- Outcome of request_with_retry when it does not return a response:
raised e is the re-raised exception of the final failed attempt, exhausted is
the unreachable RuntimeError after the while loop. -/
inductive RetryError (ε : Type) where
  | raised (e : ε) : RetryError ε
  | exhausted : RetryError ε

/-- Loop body of src/polymarket_client.py request_with_retry. f gives the
result of each attempt (indexed from 0), attempts and backoff are the Python
locals, fuel bounds the while loop (3 iterations suffice), sleeps accumulates
the performed time.sleep durations. Returns the result, the sleeps, and the
number of requests issued. -/
def requestWithRetryGo {ε α : Type} (f : ℕ → Except ε α) :
    ℕ → ℚ → ℕ → List ℚ → Except (RetryError ε) α × List ℚ × ℕ
  | attempts, _, 0, sleeps => (.error .exhausted, sleeps, attempts)
  | attempts, backoff, fuel + 1, sleeps =>
    if attempts < 3 then
      match f attempts with
      | .ok r => (.ok r, sleeps, attempts + 1)
      | .error e =>
        if attempts + 1 ≥ 3 then (.error (.raised e), sleeps, attempts + 1)
        else requestWithRetryGo f (attempts + 1) (backoff * 2) fuel (sleeps ++ [backoff])
    else (.error .exhausted, sleeps, attempts)

/-- src/polymarket_client.py request_with_retry: up to 3 attempts, backoff
starting at 1 and doubling after each failed attempt that is retried. -/
def requestWithRetry {ε α : Type} (f : ℕ → Except ε α) : Except (RetryError ε) α × List ℚ × ℕ :=
  requestWithRetryGo f 0 1 3 []

/-- A live-mode POST to the orders endpoint: its URL and JSON body. -/
structure OrderReq where
  url : String
  market : String
  outcome : String
  side : String
  price : ℚ
  size : ℚ

/-- src/polymarket_client.py place_order. net models one live POST attempt
(response body already JSON-decoded). Returns the result, the list of network
requests actually issued (the same payload once per live attempt; empty in
paper mode), and the sleeps performed by the retry loop. -/
def place_order (net : ℕ → Except String JValue) (clob_api_url : String)
    (market_id outcome_id side : String) (price size : ℚ) (mode : String) :
    Except (RetryError String) JValue × List OrderReq × List ℚ :=
  if mode = "paper" then
    (.ok (.obj [("status", .str "filled"), ("order_id", .str "paper-simulated")]), [], [])
  else
    match requestWithRetry net with
    | (res, sleeps, n) =>
      (res, List.replicate n { url := clob_api_url ++ "/orders", market := market_id, outcome := outcome_id, side := side.toLower, price := price, size := size }, sleeps)

/-- src/config.py TradingConfig with its default thresholds. -/
structure TradingConfig where
  max_balance_to_use : ℚ := 30
  max_position_per_market : ℚ := 5
  max_open_exposure : ℚ := 15
  min_probability_price : ℚ := 97 / 100
  max_probability_price : ℚ := 995 / 1000
  max_time_to_resolution_hours : ℚ := 24
  min_liquidity : ℚ := 1
  min_trade_size : ℚ := 1
  scan_interval_seconds : ℚ := 60

/-- src/config.py AppConfig. -/
structure AppConfig where
  private_key : Option String
  rpc_url : String
  data_api_url : String
  clob_api_url : String
  mode : String := "paper"
  trading : TradingConfig := {}

/-- The environment variables read by src/config.py (os.getenv results). -/
structure Env where
  private_key : Option String := none
  rpc_url : Option String := none
  mode : Option String := none

/-- The parsed content of a configuration file. The YAML/JSON decoding of
src/config.py is abstracted: a file is modelled as its already parsed
dictionary, with each recognised key optional and the trading section already
turned into a TradingConfig (TradingConfig defaults apply to absent keys). -/
structure ConfigRaw where
  rpc_url : Option String := none
  data_api_url : Option String := none
  clob_api_url : Option String := none
  mode : Option String := none
  trading : TradingConfig := {}

/-- The exception raised by AppConfig.from_file on an absent file. -/
inductive ConfigError where
  | fileNotFound : ConfigError

/-- src/config.py AppConfig.from_file: raises FileNotFoundError when the path
does not exist (file = none), otherwise builds the configuration from the
parsed file content and the environment. -/
def AppConfig.from_file (env : Env) (file : Option ConfigRaw) : Except ConfigError AppConfig :=
  match file with
  | none => .error .fileNotFound
  | some raw =>
    .ok { private_key := env.private_key
          rpc_url := env.rpc_url.getD (raw.rpc_url.getD "")
          data_api_url := raw.data_api_url.getD "https://clob.polymarket.com/markets?limit=100&offset=0"
          clob_api_url := raw.clob_api_url.getD "https://clob.polymarket.com"
          mode := env.mode.getD (raw.mode.getD "paper")
          trading := raw.trading }

/-- src/config.py load_config: uses AppConfig.from_file when the path exists,
and otherwise builds a default configuration from environment variables. -/
def load_config (env : Env) (file : Option ConfigRaw) : Except ConfigError AppConfig :=
  match file with
  | some _ => AppConfig.from_file env file
  | none =>
    .ok { private_key := env.private_key
          rpc_url := env.rpc_url.getD ""
          data_api_url := "https://clob.polymarket.com/markets?limit=100&offset=0"
          clob_api_url := "https://clob.polymarket.com"
          mode := env.mode.getD "paper"
          trading := {} }

/-- src/polymarket_client.py MarketOutcome. -/
structure MarketOutcome where
  id : String
  name : String
  best_bid : Option ℚ
  best_ask : Option ℚ
  best_ask_size : Option ℚ
deriving DecidableEq

/-- src/polymarket_client.py Market. -/
structure Market where
  id : String
  question : String
  end_date_iso : String
  outcomes : List MarketOutcome
deriving DecidableEq

/-- Candidate dictionary built by src/strategy.py find_clear_win_markets.
resolve_time holds the parsed timestamp (the source stores its isoformat
string; the timestamp is the faithful numeric content). -/
structure Candidate where
  market_id : String
  outcome_id : String
  outcome_name : String
  ask_price : ℚ
  resolve_time : ℚ
  time_to_resolve_hours : ℚ
  available_size : ℚ
  question : String
deriving DecidableEq

/-- The rejection reason keys of the reason_counts dictionary in
src/strategy.py. -/
inductive Reason where
  | missing_end
  | bad_end
  | too_late
  | no_best_ask
  | price_low
  | price_high
  | low_liquidity
deriving DecidableEq

/-- One entry of the near_price_hits diagnostic list in src/strategy.py. -/
structure NearHit where
  market : String
  outcome : String
  best_ask : ℚ
  hours_left : ℚ
  liq : ℚ
deriving DecidableEq

/-- Result of the market-level checks of find_clear_win_markets: either a
rejection reason or the parsed resolve time with the computed hours left. -/
inductive MarketStep where
  | reject (r : Reason) : MarketStep
  | proceed (resolve_time hours_left : ℚ) : MarketStep
deriving DecidableEq

/-- Result of the per-outcome checks of find_clear_win_markets: a rejection
reason together with the near-miss record appended for a near-threshold
price_low rejection, or an accepted candidate. -/
inductive OutcomeStep where
  | reject (r : Reason) (near : Option NearHit) : OutcomeStep
  | accept (c : Candidate) : OutcomeStep
deriving DecidableEq

/-- The market-level gate of src/strategy.py find_clear_win_markets:
missing end date, unparseable end date, or too-distant resolution reject the
whole market; otherwise the parsed resolve time and hours left are produced.
parse models strategy.parse_iso (stdlib datetime parsing abstracted as a
function to a timestamp in seconds), now the value of datetime.utcnow(). -/
def process_market_gate (trading : TradingConfig) (parse : String → Option ℚ) (now : ℚ) (m : Market) : MarketStep :=
  if m.end_date_iso = "" then .reject .missing_end
  else
    match parse m.end_date_iso with
    | none => .reject .bad_end
    | some t =>
      if trading.max_time_to_resolution_hours < (t - now) / 3600 then .reject .too_late
      else .proceed t ((t - now) / 3600)

/-- The per-outcome checks of src/strategy.py find_clear_win_markets, in
source order: missing ask or ask size, price below the lower bound (with the
near-miss record when within 0.05 of it), price above the upper bound, low
liquidity, else an accepted candidate. -/
def process_outcome (trading : TradingConfig) (m : Market) (resolve_time hours_left : ℚ)
    (o : MarketOutcome) : OutcomeStep :=
  match o.best_ask, o.best_ask_size with
  | some ask, some liq =>
    if ask < trading.min_probability_price then
      .reject .price_low
        (if trading.min_probability_price - 5 / 100 ≤ ask then
          some { market := m.question, outcome := o.name, best_ask := ask, hours_left := hours_left, liq := liq }
        else none)
    else if trading.max_probability_price < ask then .reject .price_high none
    else if liq < trading.min_liquidity then .reject .low_liquidity none
    else
      .accept { market_id := m.id, outcome_id := o.id, outcome_name := o.name, ask_price := ask,
                resolve_time := resolve_time, time_to_resolve_hours := hours_left,
                available_size := liq, question := m.question }
  | _, _ => .reject .no_best_ask none

/-- The reason_counts dictionary of find_clear_win_markets. -/
structure ReasonCounts where
  missing_end : ℕ := 0
  bad_end : ℕ := 0
  too_late : ℕ := 0
  no_best_ask : ℕ := 0
  price_low : ℕ := 0
  price_high : ℕ := 0
  low_liquidity : ℕ := 0
deriving DecidableEq

/-- Increment one rejection counter. -/
def bump (rc : ReasonCounts) : Reason → ReasonCounts
  | .missing_end => { rc with missing_end := rc.missing_end + 1 }
  | .bad_end => { rc with bad_end := rc.bad_end + 1 }
  | .too_late => { rc with too_late := rc.too_late + 1 }
  | .no_best_ask => { rc with no_best_ask := rc.no_best_ask + 1 }
  | .price_low => { rc with price_low := rc.price_low + 1 }
  | .price_high => { rc with price_high := rc.price_high + 1 }
  | .low_liquidity => { rc with low_liquidity := rc.low_liquidity + 1 }

/-- The accumulating state of the scan loop in find_clear_win_markets. -/
structure ScanState where
  candidates : List Candidate
  counts : ReasonCounts
  near_price_hits : List NearHit
deriving DecidableEq

/-- One outcome iteration of the scan loop. -/
def scan_outcome_step (trading : TradingConfig) (m : Market) (resolve_time hours_left : ℚ)
    (st : ScanState) (o : MarketOutcome) : ScanState :=
  match process_outcome trading m resolve_time hours_left o with
  | .reject r near =>
    { st with counts := bump st.counts r, near_price_hits := st.near_price_hits ++ near.toList }
  | .accept c => { st with candidates := st.candidates ++ [c] }

/-- One market iteration of the scan loop. -/
def scan_market (trading : TradingConfig) (parse : String → Option ℚ) (now : ℚ)
    (st : ScanState) (m : Market) : ScanState :=
  match process_market_gate trading parse now m with
  | .reject r => { st with counts := bump st.counts r }
  | .proceed resolve_time hours_left =>
    m.outcomes.foldl (scan_outcome_step trading m resolve_time hours_left) st

/-- src/strategy.py find_clear_win_markets restricted to its returned value:
the candidate list accumulated over all markets in input order (the final
logging of diagnostics has no effect on the return value). -/
def find_clear_win_markets (trading : TradingConfig) (parse : String → Option ℚ) (now : ℚ)
    (markets : List Market) : List Candidate :=
  (markets.foldl (scan_market trading parse now) { candidates := [], counts := {}, near_price_hits := [] }).candidates

/-- src/main.py Position dictionary appended to the open-position ledger. -/
structure Position where
  market_id : String
  outcome_id : String
  outcome_name : String
  entry_price : ℚ
  size : ℚ
  entry_time : ℚ
deriving DecidableEq

/-- The client state that src/risk.py reads: the balances dictionary returned
by PolymarketClient.get_balances. -/
structure ClientModel where
  balances : List (String × ℚ)

/-- Python balances.get k with default 0.0. -/
def lookup_balance (k : String) : List (String × ℚ) → ℚ
  | [] => 0
  | (k1, v) :: rest => if k1 = k then v else lookup_balance k rest

/-- The balances returned by the placeholder
PolymarketClient.get_balances in src/polymarket_client.py. -/
def placeholder_client : ClientModel :=
  { balances := [("USDC", 0)] }

/-- src/risk.py get_available_capital: remaining capital from the USDC
balance, the configured ceiling, and the summed open exposure, floored at 0. -/
def get_available_capital (client : ClientModel) (trading : TradingConfig)
    (open_positions : List Position) : ℚ :=
  max (min (lookup_balance "USDC" client.balances) trading.max_balance_to_use
        - (open_positions.map (fun p => p.size)).sum) 0

/-- src/risk.py size_for_market: 0 when no capital is left, otherwise the
minimum of the per-market cap, the remaining capital, and the candidate's
available size, floored at 0. -/
def size_for_market (client : ClientModel) (trading : TradingConfig)
    (open_positions : List Position) (candidate : Candidate) : ℚ :=
  if get_available_capital client trading open_positions ≤ 0 then 0
  else
    max 0 (min trading.max_position_per_market
      (min (get_available_capital client trading open_positions) candidate.available_size))

/-- One row of trades.csv as written by src/main.py append_trade_row. -/
structure TradeRow where
  timestamp : ℚ
  market_id : String
  question : String
  outcome : String
  side : String
  price : ℚ
  size : ℚ
  expected_payout : ℚ
  status : JValue

/-- One call of client.place_order as issued by src/main.py open_position. -/
structure PlaceCall where
  market_id : String
  outcome_id : String
  side : String
  price : ℚ
  size : ℚ
  mode : String
deriving DecidableEq

/-- Observable effects of processing candidates in src/main.py: the ledger,
the place_order calls, the network POSTs those triggered, the rows written to
trades.csv, the sleeps of retry backoff, and the exception aborting the cycle
when place_order raised. -/
structure RunEffects where
  positions : List Position
  calls : List PlaceCall
  posts : List OrderReq
  trades : List TradeRow
  sleeps : List ℚ
  err : Option (RetryError String)

/-- src/main.py open_position: size the candidate, skip it when the size is
below min_trade_size, otherwise place one order, append one Position and emit
one trade row; a raised place_order error propagates with the ledger
unchanged. tnow models time.time(). -/
def open_position (client : ClientModel) (config : AppConfig) (net : ℕ → Except String JValue)
    (tnow : ℚ) (open_positions : List Position) (candidate : Candidate) : RunEffects :=
  if size_for_market client config.trading open_positions candidate < config.trading.min_trade_size then
    { positions := open_positions, calls := [], posts := [], trades := [], sleeps := [], err := none }
  else
    match place_order net config.clob_api_url candidate.market_id candidate.outcome_id "buy"
        candidate.ask_price (size_for_market client config.trading open_positions candidate) config.mode with
    | (.ok order, posts, sleeps) =>
      { positions := open_positions ++
          [{ market_id := candidate.market_id, outcome_id := candidate.outcome_id,
             outcome_name := candidate.outcome_name, entry_price := candidate.ask_price,
             size := size_for_market client config.trading open_positions candidate, entry_time := tnow }]
        calls := [{ market_id := candidate.market_id, outcome_id := candidate.outcome_id, side := "buy",
                    price := candidate.ask_price,
                    size := size_for_market client config.trading open_positions candidate,
                    mode := config.mode }]
        posts := posts
        trades := [{ timestamp := tnow, market_id := candidate.market_id, question := candidate.question,
                     outcome := candidate.outcome_name, side := "BUY", price := candidate.ask_price,
                     size := size_for_market client config.trading open_positions candidate,
                     expected_payout := size_for_market client config.trading open_positions candidate
                       * (1 - candidate.ask_price),
                     status := jgetD order "status" (.str "unknown") }]
        sleeps := sleeps
        err := none }
    | (.error e, posts, sleeps) =>
      { positions := open_positions
        calls := [{ market_id := candidate.market_id, outcome_id := candidate.outcome_id, side := "buy",
                    price := candidate.ask_price,
                    size := size_for_market client config.trading open_positions candidate,
                    mode := config.mode }]
        posts := posts, trades := [], sleeps := sleeps, err := some e }

/-- The candidate loop of src/main.py run_once: process candidates in order,
threading the mutated ledger; a raised error aborts the remaining
candidates. -/
def run_candidates (client : ClientModel) (config : AppConfig) (net : ℕ → Except String JValue)
    (tnow : ℚ) : List Position → List Candidate → RunEffects
  | ps, [] => { positions := ps, calls := [], posts := [], trades := [], sleeps := [], err := none }
  | ps, c :: cs =>
    let r := open_position client config net tnow ps c
    match r.err with
    | some _ => r
    | none =>
      let rest := run_candidates client config net tnow r.positions cs
      { positions := rest.positions, calls := r.calls ++ rest.calls, posts := r.posts ++ rest.posts,
        trades := r.trades ++ rest.trades, sleeps := r.sleeps ++ rest.sleeps, err := rest.err }

/-- src/main.py run_once: scan for candidates, end the cycle when there are
none, otherwise open a position for each candidate in returned order. -/
def run_once (client : ClientModel) (config : AppConfig) (net : ℕ → Except String JValue)
    (tnow : ℚ) (parse : String → Option ℚ) (now : ℚ) (markets : List Market)
    (open_positions : List Position) : RunEffects :=
  if (find_clear_win_markets config.trading parse now markets).isEmpty then
    { positions := open_positions, calls := [], posts := [], trades := [], sleeps := [], err := none }
  else
    run_candidates client config net tnow open_positions
      (find_clear_win_markets config.trading parse now markets)

/-- The ledger invariant of the execution loop: every recorded position's
size is at least min_trade_size and at most max_position_per_market. -/
def position_within_limits (trading : TradingConfig) (p : Position) : Prop :=
  trading.min_trade_size ≤ p.size ∧ p.size ≤ trading.max_position_per_market

/-- Concrete client for witnesses: a wallet with a 30 USDC balance. -/
def clientEx : ClientModel :=
  { balances := [("USDC", 30)] }

/-- Concrete paper-mode application configuration for witnesses. -/
def configEx : AppConfig :=
  { private_key := none, rpc_url := "", data_api_url := "https://clob.polymarket.com/markets?limit=100&offset=0",
    clob_api_url := "https://clob.polymarket.com", mode := "paper", trading := {} }

/-- Concrete candidate for witnesses: ask 0.98, 10 units available. -/
def candEx : Candidate :=
  { market_id := "m1", outcome_id := "o1", outcome_name := "YES", ask_price := 98 / 100,
    resolve_time := 36000, time_to_resolve_hours := 10, available_size := 10, question := "q" }

/-- Concrete network model for witnesses: every attempt fails (paper mode
never consults it). -/
def netEx : ℕ → Except String JValue :=
  fun _ => .error "network down"

/-- Position appended by open_position in the concrete witness scenario. -/
def posEx : Position :=
  { market_id := "m1", outcome_id := "o1", outcome_name := "YES", entry_price := 98 / 100,
    size := 5, entry_time := 0 }

/-- The synthetic paper-mode order result. -/
def paperJson : JValue :=
  .obj [("status", .str "filled"), ("order_id", .str "paper-simulated")]

/-- Network call sequence for witnesses: two failures, then success. -/
def retrySucc : ℕ → Except String ℕ :=
  fun n => if n = 0 then .error "e0" else if n = 1 then .error "e1" else .ok 7

/-- Network call sequence for witnesses: three failures. -/
def retryFail : ℕ → Except String ℕ :=
  fun n => if n = 0 then .error "e0" else if n = 1 then .error "e1" else .error "e2"

/-- Concrete resolution-time parser for witnesses: one known timestamp. -/
def parseEx : String → Option ℚ :=
  fun s => if s = "2025-01-01T00:00:00" then some 3600 else none

/-- Concrete market for witnesses, resolving one hour after epoch 0. -/
def mEx : Market :=
  { id := "m1", question := "q", end_date_iso := "2025-01-01T00:00:00", outcomes := [] }

/-- Concrete outcome for witnesses with an ask above the upper bound. -/
def oEx : MarketOutcome :=
  { id := "o1", name := "YES", best_bid := none, best_ask := some (999 / 1000), best_ask_size := some 5 }

/-- Concrete order-book tail for the C9 witness: an asks list only. -/
def kvsEx : List (String × JValue) :=
  [("asks", JValue.arr [JValue.obj [("price", JValue.num (1 / 2))]])]

theorem get_available_capital_nonneg (client : ClientModel) (trading : TradingConfig)
    (ops : List Position) : 0 ≤ get_available_capital client trading ops :=
  le_max_right _ _

theorem size_for_market_eq (client : ClientModel) (trading : TradingConfig)
    (ops : List Position) (c : Candidate) :
    size_for_market client trading ops c =
      max 0 (min trading.max_position_per_market
        (min (get_available_capital client trading ops) c.available_size)) := by
  unfold size_for_market
  split_ifs with h
  · have h0 : get_available_capital client trading ops = 0 :=
      le_antisymm h (get_available_capital_nonneg client trading ops)
    rw [h0]
    exact (max_eq_left ((min_le_right _ _).trans (min_le_left _ _))).symm
  · rfl

theorem size_for_market_le_max_position (client : ClientModel) (trading : TradingConfig)
    (ops : List Position) (c : Candidate) (hP : 0 ≤ trading.max_position_per_market) :
    size_for_market client trading ops c ≤ trading.max_position_per_market := by
  rw [size_for_market_eq]
  exact max_le hP (min_le_left _ _)

/-- C1: size_for_market returns max(0, min(max_position_per_market,
capital_left, available_size)) with capital_left the floored remaining
capital, returns 0 whenever capital_left is not positive, and its result is
never negative and never exceeds available_size, max_position_per_market, or
the remaining capital (for a candidate with nonnegative available size and a
nonnegative per-market cap). -/
theorem sizer_bounds_C1 (client : ClientModel) (trading : TradingConfig)
    (ops : List Position) (c : Candidate)
    (hA : 0 ≤ c.available_size) (hP : 0 ≤ trading.max_position_per_market) :
    size_for_market client trading ops c =
        max 0 (min trading.max_position_per_market
          (min (get_available_capital client trading ops) c.available_size))
      ∧ (get_available_capital client trading ops ≤ 0 → size_for_market client trading ops c = 0)
      ∧ 0 ≤ size_for_market client trading ops c
      ∧ size_for_market client trading ops c ≤ c.available_size
      ∧ size_for_market client trading ops c ≤ trading.max_position_per_market
      ∧ size_for_market client trading ops c ≤ get_available_capital client trading ops := by
  refine ⟨size_for_market_eq client trading ops c, ?_, ?_, ?_, ?_, ?_⟩
  · intro h
    unfold size_for_market
    rw [if_pos h]
  · rw [size_for_market_eq]
    exact le_max_left _ _
  · rw [size_for_market_eq]
    exact max_le hA ((min_le_right _ _).trans (min_le_right _ _))
  · exact size_for_market_le_max_position client trading ops c hP
  · rw [size_for_market_eq]
    exact max_le (get_available_capital_nonneg client trading ops)
      ((min_le_right _ _).trans (min_le_left _ _))

theorem sizer_bounds_C1_witness :
    0 ≤ size_for_market clientEx {} [] candEx ∧
      size_for_market clientEx {} [] candEx ≤ candEx.available_size :=
  ⟨(sizer_bounds_C1 clientEx {} [] candEx (by decide) (by decide)).2.2.1,
   (sizer_bounds_C1 clientEx {} [] candEx (by decide) (by decide)).2.2.2.1⟩

/-- C4 counterexample: with the configuration file absent, load_config does
not raise; it returns the built-in default configuration, so the program
continues with defaults rather than failing fatally. -/
theorem config_absent_C4_counterexample :
    load_config { private_key := none, rpc_url := none, mode := none } none =
      .ok { private_key := none, rpc_url := "",
            data_api_url := "https://clob.polymarket.com/markets?limit=100&offset=0",
            clob_api_url := "https://clob.polymarket.com", mode := "paper", trading := {} } :=
  rfl

/-- C4 amended: when the configuration file is absent, load_config returns a
default configuration built from environment variables instead of raising;
only AppConfig.from_file raises on an absent file, and load_config calls it
only when the file exists. -/
theorem config_absent_C4_amended (env : Env) :
    load_config env none =
        .ok { private_key := env.private_key, rpc_url := env.rpc_url.getD "",
              data_api_url := "https://clob.polymarket.com/markets?limit=100&offset=0",
              clob_api_url := "https://clob.polymarket.com", mode := env.mode.getD "paper",
              trading := {} }
      ∧ AppConfig.from_file env none = .error .fileNotFound :=
  ⟨rfl, rfl⟩

/-- C7: place_order in paper mode issues no network call, performs no sleep,
and returns status filled with order id paper-simulated, for every market,
outcome, side, price and size. -/
theorem paper_order_C7 (net : ℕ → Except String JValue) (clob market_id outcome_id side : String)
    (price size : ℚ) :
    place_order net clob market_id outcome_id side price size "paper" =
      (.ok (.obj [("status", .str "filled"), ("order_id", .str "paper-simulated")]), [], []) :=
  rfl

/-- C8: safe_float coerces a malformed numeric value to none, but a malformed
price string inside a raw asks-levels list used by the fallback scan makes
extract_best_levels raise (the raw float call inside the min key bypasses
safe_float), contradicting the claim that malformed numerics never raise. -/
theorem extract_fallback_raises_C8 :
    safe_float (JValue.str "abc") = none
      ∧ extract_best_levels
          (JValue.obj [("asks", JValue.arr [JValue.obj [("price", JValue.str "abc"), ("size", JValue.num 5)]])])
          (JValue.obj []) = .error () :=
  ⟨rfl, rfl⟩

/-- C2: for every Gateway network call, if the first two attempts fail and
the third succeeds, requestWithRetry returns the success result after
sleeping exactly twice with backoff durations 1 then 2 and issuing exactly 3
requests; if all three attempts fail, the third error is re-raised with no
further attempts and no further sleeps. -/
theorem retry_backoff_C2 {ε α : Type} (f : ℕ → Except ε α) (e0 e1 : ε) :
    (∀ r : α, f 0 = .error e0 → f 1 = .error e1 → f 2 = .ok r →
      requestWithRetry f = (.ok r, [1, 2], 3))
    ∧ (∀ e2 : ε, f 0 = .error e0 → f 1 = .error e1 → f 2 = .error e2 →
      requestWithRetry f = (.error (.raised e2), [1, 2], 3)) := by
  constructor
  · intro r h0 h1 h2
    simp [requestWithRetry, requestWithRetryGo, h0, h1, h2]
  · intro e2 h0 h1 h2
    simp [requestWithRetry, requestWithRetryGo, h0, h1, h2]

theorem retry_backoff_C2_witness :
    requestWithRetry retrySucc = (.ok 7, [1, 2], 3)
      ∧ requestWithRetry retryFail = (.error (.raised "e2"), [1, 2], 3) :=
  ⟨(retry_backoff_C2 retrySucc "e0" "e1").1 7 rfl rfl rfl,
   (retry_backoff_C2 retryFail "e0" "e1").2 "e2" rfl rfl rfl⟩

/-- C3: for an outcome that reaches the price checks (both best ask and best
ask size present) under a configuration whose lower price bound does not
exceed its upper one: an ask equal to min_probability_price is not rejected
as price_low, an ask equal to max_probability_price is not rejected as
price_high, an ask below the lower bound is rejected as price_low, and an
ask above the upper bound is rejected as price_high. -/
theorem price_bounds_C3 (trading : TradingConfig) (m : Market) (rt hl : ℚ)
    (o : MarketOutcome) (ask liq : ℚ)
    (hask : o.best_ask = some ask) (hliq : o.best_ask_size = some liq)
    (hconf : trading.min_probability_price ≤ trading.max_probability_price) :
    (ask = trading.min_probability_price →
      ∀ nh, process_outcome trading m rt hl o ≠ .reject .price_low nh)
    ∧ (ask = trading.max_probability_price →
      ∀ nh, process_outcome trading m rt hl o ≠ .reject .price_high nh)
    ∧ (ask < trading.min_probability_price →
      ∃ nh, process_outcome trading m rt hl o = .reject .price_low nh)
    ∧ (trading.max_probability_price < ask →
      process_outcome trading m rt hl o = .reject .price_high none) := by
  obtain ⟨oid, oname, obb, oba, obas⟩ := o
  simp only at hask hliq
  subst hask
  subst hliq
  refine ⟨?_, ?_, ?_, ?_⟩
  · intro he nh
    have hcond : ¬ ask < trading.min_probability_price := by
      rw [he]
      exact lt_irrefl _
    simp only [process_outcome, if_neg hcond]
    split_ifs <;> simp
  · intro he nh
    have hc1 : ¬ ask < trading.min_probability_price := by
      rw [he]
      exact not_lt.mpr hconf
    have hc2 : ¬ trading.max_probability_price < ask := by
      rw [he]
      exact lt_irrefl _
    simp only [process_outcome, if_neg hc1, if_neg hc2]
    split_ifs <;> simp
  · intro hlow
    simp only [process_outcome, if_pos hlow]
    exact ⟨_, rfl⟩
  · intro hhigh
    have hc1 : ¬ ask < trading.min_probability_price :=
      not_lt.mpr (hconf.trans hhigh.le)
    simp only [process_outcome, if_neg hc1, if_pos hhigh]

theorem price_bounds_C3_witness :
    process_outcome ({} : TradingConfig) mEx 3600 1 oEx = .reject .price_high none :=
  (price_bounds_C3 {} mEx 3600 1 oEx (999 / 1000) 5 rfl rfl (by norm_num)).2.2.2 (by norm_num)

/-- C6: for a market with a non-empty, parseable resolution time t, the
market-level gate computes hours_left as (t - now) / 3600 exactly and rejects
as too_late precisely when hours_left exceeds max_time_to_resolution_hours;
equality passes, and a negative hours_left (resolution already past) also
passes when the bound is nonnegative. -/
theorem hours_gate_C6 (trading : TradingConfig) (parse : String → Option ℚ) (now : ℚ)
    (m : Market) (t : ℚ) (h1 : m.end_date_iso ≠ "") (h2 : parse m.end_date_iso = some t) :
    (process_market_gate trading parse now m = .reject .too_late ↔
      trading.max_time_to_resolution_hours < (t - now) / 3600)
    ∧ (¬ trading.max_time_to_resolution_hours < (t - now) / 3600 →
      process_market_gate trading parse now m = .proceed t ((t - now) / 3600))
    ∧ ((t - now) / 3600 = trading.max_time_to_resolution_hours →
      process_market_gate trading parse now m = .proceed t ((t - now) / 3600))
    ∧ ((t - now) / 3600 < 0 → 0 ≤ trading.max_time_to_resolution_hours →
      process_market_gate trading parse now m = .proceed t ((t - now) / 3600)) := by
  have hred : process_market_gate trading parse now m =
      if trading.max_time_to_resolution_hours < (t - now) / 3600 then .reject .too_late
      else .proceed t ((t - now) / 3600) := by
    unfold process_market_gate
    rw [if_neg h1, h2]
  refine ⟨?_, ?_, ?_, ?_⟩
  · rw [hred]
    split_ifs with h
    · exact iff_of_true rfl h
    · exact iff_of_false (by simp) h
  · intro h
    rw [hred, if_neg h]
  · intro h
    rw [hred, if_neg (by rw [h]; exact lt_irrefl _)]
  · intro hneg hbound
    rw [hred, if_neg (not_lt.mpr (hneg.le.trans hbound))]

theorem hours_gate_C6_witness :
    process_market_gate ({} : TradingConfig) parseEx 0 mEx = .proceed 3600 ((3600 - 0) / 3600) :=
  (hours_gate_C6 {} parseEx 0 mEx 3600 (by decide) rfl).2.1 (by norm_num)

theorem lookupJ_eq_none (k : String) (kvs : List (String × JValue))
    (h : ∀ p ∈ kvs, p.1 ≠ k) : lookupJ k kvs = none := by
  induction kvs with
  | nil => rfl
  | cons q rest ih =>
    obtain ⟨k1, v⟩ := q
    have hne : k1 ≠ k := h (k1, v) (List.mem_cons_self _ _)
    simp only [lookupJ, if_neg hne]
    exact ih (fun p hp => h p (List.mem_cons_of_mem _ hp))

/-- C9 counterexample: an outcome-level scalar zero is returned as-is by
extract_best_levels (best bid some 0), and so is distinguishable from an
absent field (which yields none); the claim that an explicit scalar zero is
never returned as-is fails. -/
theorem zero_scalar_C9_counterexample :
    extract_best_levels (JValue.obj [("bestBid", JValue.num 0)]) (JValue.obj []) =
        .ok (some 0, none, none)
      ∧ extract_best_levels (JValue.obj []) (JValue.obj []) = .ok (none, none, none) :=
  ⟨rfl, rfl⟩

/-- C9 amended: an explicit scalar best-bid, best-ask or best-ask-size equal
to 0.0 at the order-book level falls through the or-chain exactly as an
absent field does: extract_best_levels cannot distinguish an order-book
object carrying the field as 0.0 from the same object without the field. (At
the outcome level, the end of the or-chain, a scalar zero is instead passed
to safe_float and can be returned as-is.) -/
theorem zero_scalar_C9_amended (field : String)
    (hf : field = "bestBid" ∨ field = "bestAsk" ∨ field = "bestAskSize")
    (kvs : List (String × JValue)) (hk : ∀ p ∈ kvs, p.1 ≠ field) (outcome : JValue) :
    extract_best_levels outcome (JValue.obj ((field, JValue.num 0) :: kvs)) =
      extract_best_levels outcome (JValue.obj kvs) := by
  rcases hf with rfl | rfl | rfl <;>
    simp [extract_best_levels, jgetN, jgetOpt, lookupJ, lookupJ_eq_none _ _ hk, pyOr, truthy]

theorem zero_scalar_C9_witness :
    extract_best_levels (JValue.obj []) (JValue.obj (("bestAsk", JValue.num 0) :: kvsEx)) =
      extract_best_levels (JValue.obj []) (JValue.obj kvsEx) :=
  zero_scalar_C9_amended "bestAsk" (Or.inr (Or.inl rfl)) kvsEx
    (by intro p hp; simp only [kvsEx, List.mem_singleton] at hp; subst hp; decide)
    (JValue.obj [])

/-- C5: for a candidate processed by open_position: when the sized amount is
below min_trade_size the candidate is skipped with no order call, no appended
position and no trade row; otherwise (when the order call returns) exactly
one order is placed, exactly one Position carrying the candidate's ask as
entry price and the realized size is appended, and exactly one trade row is
emitted with expected_payout = size * (1 - ask_price) and the order's
reported status. -/
theorem open_position_C5 (client : ClientModel) (config : AppConfig)
    (net : ℕ → Except String JValue) (tnow : ℚ) (ps : List Position) (c : Candidate) :
    (size_for_market client config.trading ps c < config.trading.min_trade_size →
      open_position client config net tnow ps c =
        { positions := ps, calls := [], posts := [], trades := [], sleeps := [], err := none })
    ∧ (∀ (order : JValue) (posts : List OrderReq) (sleeps : List ℚ),
        ¬ size_for_market client config.trading ps c < config.trading.min_trade_size →
        place_order net config.clob_api_url c.market_id c.outcome_id "buy" c.ask_price
            (size_for_market client config.trading ps c) config.mode = (.ok order, posts, sleeps) →
        open_position client config net tnow ps c =
          { positions := ps ++ [{ market_id := c.market_id, outcome_id := c.outcome_id,
                                  outcome_name := c.outcome_name, entry_price := c.ask_price,
                                  size := size_for_market client config.trading ps c,
                                  entry_time := tnow }],
            calls := [{ market_id := c.market_id, outcome_id := c.outcome_id, side := "buy",
                        price := c.ask_price, size := size_for_market client config.trading ps c,
                        mode := config.mode }],
            posts := posts,
            trades := [{ timestamp := tnow, market_id := c.market_id, question := c.question,
                         outcome := c.outcome_name, side := "BUY", price := c.ask_price,
                         size := size_for_market client config.trading ps c,
                         expected_payout := size_for_market client config.trading ps c
                           * (1 - c.ask_price),
                         status := jgetD order "status" (.str "unknown") }],
            sleeps := sleeps, err := none }) := by
  constructor
  · intro h
    unfold open_position
    rw [if_pos h]
  · intro order posts sleeps hns hpo
    unfold open_position
    rw [if_neg hns, hpo]

theorem size_for_market_concrete : size_for_market clientEx configEx.trading [] candEx = 5 := by
  norm_num [size_for_market, get_available_capital, lookup_balance, clientEx, configEx, candEx]

theorem open_position_C5_witness :
    open_position clientEx configEx netEx 0 [] candEx =
      { positions := [] ++ [{ market_id := candEx.market_id, outcome_id := candEx.outcome_id,
                              outcome_name := candEx.outcome_name, entry_price := candEx.ask_price,
                              size := size_for_market clientEx configEx.trading [] candEx,
                              entry_time := 0 }],
        calls := [{ market_id := candEx.market_id, outcome_id := candEx.outcome_id, side := "buy",
                    price := candEx.ask_price,
                    size := size_for_market clientEx configEx.trading [] candEx,
                    mode := configEx.mode }],
        posts := [],
        trades := [{ timestamp := 0, market_id := candEx.market_id, question := candEx.question,
                     outcome := candEx.outcome_name, side := "BUY", price := candEx.ask_price,
                     size := size_for_market clientEx configEx.trading [] candEx,
                     expected_payout := size_for_market clientEx configEx.trading [] candEx
                       * (1 - candEx.ask_price),
                     status := jgetD paperJson "status" (.str "unknown") }],
        sleeps := [], err := none } :=
  (open_position_C5 clientEx configEx netEx 0 [] candEx).2 paperJson [] []
    (by rw [size_for_market_concrete]; norm_num [configEx]) rfl

theorem open_position_positions_cases (client : ClientModel) (config : AppConfig)
    (net : ℕ → Except String JValue) (tnow : ℚ) (ps : List Position) (c : Candidate) :
    ∀ p ∈ (open_position client config net tnow ps c).positions,
      p ∈ ps ∨ (config.trading.min_trade_size ≤ p.size ∧
        p.size = size_for_market client config.trading ps c) := by
  intro p hp
  unfold open_position at hp
  by_cases h : size_for_market client config.trading ps c < config.trading.min_trade_size
  · rw [if_pos h] at hp
    exact Or.inl hp
  · rw [if_neg h] at hp
    rcases hpo : place_order net config.clob_api_url c.market_id c.outcome_id "buy" c.ask_price
        (size_for_market client config.trading ps c) config.mode with ⟨res, posts, sleeps⟩
    rw [hpo] at hp
    cases res with
    | ok order =>
      rcases List.mem_append.mp hp with hmem | hmem
      · exact Or.inl hmem
      · rw [List.mem_singleton] at hmem
        subst hmem
        exact Or.inr ⟨not_lt.mp h, rfl⟩
    | error e =>
      exact Or.inl hp

theorem open_position_preserves_limits (client : ClientModel) (config : AppConfig)
    (net : ℕ → Except String JValue) (tnow : ℚ) (ps : List Position) (c : Candidate)
    (hP : 0 ≤ config.trading.max_position_per_market)
    (hps : ∀ q ∈ ps, position_within_limits config.trading q) :
    ∀ p ∈ (open_position client config net tnow ps c).positions,
      position_within_limits config.trading p := by
  intro p hp
  rcases open_position_positions_cases client config net tnow ps c p hp with hmem | ⟨h1, h2⟩
  · exact hps p hmem
  · refine ⟨h1, ?_⟩
    rw [h2]
    exact size_for_market_le_max_position client config.trading ps c hP

theorem run_candidates_preserves_limits (client : ClientModel) (config : AppConfig)
    (net : ℕ → Except String JValue) (tnow : ℚ)
    (hP : 0 ≤ config.trading.max_position_per_market) :
    ∀ (cs : List Candidate) (ps : List Position),
      (∀ q ∈ ps, position_within_limits config.trading q) →
      ∀ p ∈ (run_candidates client config net tnow ps cs).positions,
        position_within_limits config.trading p := by
  intro cs
  induction cs with
  | nil =>
    intro ps hps p hp
    exact hps p hp
  | cons c cs ih =>
    intro ps hps p hp
    have hops := open_position_preserves_limits client config net tnow ps c hP hps
    simp only [run_candidates] at hp
    cases herr : (open_position client config net tnow ps c).err with
    | some e =>
      rw [herr] at hp
      exact hops p hp
    | none =>
      rw [herr] at hp
      exact ih (open_position client config net tnow ps c).positions hops p hp

theorem run_once_preserves_limits (client : ClientModel) (config : AppConfig)
    (net : ℕ → Except String JValue) (tnow : ℚ)
    (hP : 0 ≤ config.trading.max_position_per_market)
    (parse : String → Option ℚ) (now : ℚ) (markets : List Market) (ps : List Position)
    (hps : ∀ q ∈ ps, position_within_limits config.trading q) :
    ∀ p ∈ (run_once client config net tnow parse now markets ps).positions,
      position_within_limits config.trading p := by
  intro p hp
  unfold run_once at hp
  split_ifs at hp with h
  · exact hps p hp
  · exact run_candidates_preserves_limits client config net tnow hP
      (find_clear_win_markets config.trading parse now markets) ps hps p hp

/-- C10: with a nonnegative per-market cap, every position ever present in
the ledger has size at least min_trade_size and at most
max_position_per_market: the ledger starts empty, open_position appends only
positions whose sized amount passed the min_trade_size check and is capped by
the Sizer, and the per-cycle loops preserve the invariant. -/
theorem ledger_invariant_C10 (client : ClientModel) (config : AppConfig)
    (net : ℕ → Except String JValue) (tnow : ℚ)
    (hP : 0 ≤ config.trading.max_position_per_market) :
    (∀ p ∈ ([] : List Position), position_within_limits config.trading p)
    ∧ (∀ ps c p, (∀ q ∈ ps, position_within_limits config.trading q) →
        p ∈ (open_position client config net tnow ps c).positions →
        position_within_limits config.trading p)
    ∧ (∀ ps cs p, (∀ q ∈ ps, position_within_limits config.trading q) →
        p ∈ (run_candidates client config net tnow ps cs).positions →
        position_within_limits config.trading p)
    ∧ (∀ parse now markets ps p, (∀ q ∈ ps, position_within_limits config.trading q) →
        p ∈ (run_once client config net tnow parse now markets ps).positions →
        position_within_limits config.trading p) :=
  ⟨fun p hp => absurd hp (List.not_mem_nil p),
   fun ps c p hps hp => open_position_preserves_limits client config net tnow ps c hP hps p hp,
   fun ps cs p hps hp => run_candidates_preserves_limits client config net tnow hP cs ps hps p hp,
   fun parse now markets ps p hps hp =>
     run_once_preserves_limits client config net tnow hP parse now markets ps hps p hp⟩

theorem open_position_concrete_positions :
    (open_position clientEx configEx netEx 0 [] candEx).positions = [posEx] := by
  have hns : ¬ size_for_market clientEx configEx.trading [] candEx < configEx.trading.min_trade_size := by
    rw [size_for_market_concrete]
    norm_num [configEx]
  have hpo : place_order netEx configEx.clob_api_url candEx.market_id candEx.outcome_id "buy"
      candEx.ask_price (size_for_market clientEx configEx.trading [] candEx) configEx.mode =
      (.ok paperJson, [], []) := rfl
  unfold open_position
  rw [if_neg hns, hpo]
  show [] ++ [{ market_id := candEx.market_id, outcome_id := candEx.outcome_id,
                outcome_name := candEx.outcome_name, entry_price := candEx.ask_price,
                size := size_for_market clientEx configEx.trading [] candEx,
                entry_time := 0 : Position }] = [posEx]
  rw [size_for_market_concrete]
  rfl

theorem ledger_invariant_C10_witness : position_within_limits configEx.trading posEx :=
  (ledger_invariant_C10 clientEx configEx netEx 0 (by norm_num [configEx])).2.1 [] candEx posEx
    (fun q hq => absurd hq (List.not_mem_nil q))
    (by rw [open_position_concrete_positions]; exact List.mem_singleton_self posEx)
